import Mathlib

/-!
# ClawWatch Setup — pairing-code registry: shallow embedding

Shallow embedding of the pairing-code registry of the ClawWatch Setup
repository (`api/webhook.js`, `api/verify.js`, `api/index.js`).

Modelling conventions:
* The JS `Map` `pendingCodes` is an association list `Store = List (String × CodeData)`;
  `Map.get` / `Map.has` / `Map.delete` / `Map.set` become `lookupCode` / `hasCode` /
  `eraseCode` / `mapSet`, and iteration-with-delete (`cleanExpiredCodes`) becomes a filter.
* `Date.now()` is a `Nat` parameter `now`, one per handler invocation (all `Date.now()`
  calls inside a single handler run are modelled as the same instant).
* `Math.random()` is modelled by passing the stream of generator outputs as a list of
  candidate strings `cands`; the `do { code = generateCode() } while (has(code))` loop
  becomes `issueLoop`, returning `none` when the (finite) candidate prefix is exhausted
  (i.e. the JS loop would still be running).
* JSON request bodies are `JsVal` values; JS property access on `null`/`undefined`
  throws, which the handlers' `try/catch` turns into a 500 response — `JsVal.getProp`
  returns `none` exactly in the throwing cases.
* `process.env` reads are `Option String` parameters.
-/

/-- JS values as far as the handlers inspect them: `undefined`, `null`, booleans,
(integer) numbers, strings and objects. -/
inductive JsVal where
  | undefined : JsVal
  | null : JsVal
  | bool : Bool → JsVal
  | num : Int → JsVal
  | str : String → JsVal
  | obj : List (String × JsVal) → JsVal

/-- JS property access `v.k`. Returns `none` when the access throws
(`v` is `null` or `undefined`); on primitives and objects it yields the
field value or `undefined`. -/
def JsVal.getProp : JsVal → String → Option JsVal
  | .undefined, _ => none
  | .null, _ => none
  | .obj fields, k => some (((fields.find? (fun p => p.1 == k)).map (fun p => p.2)).getD .undefined)
  | _, _ => some .undefined

/-- JS truthiness. -/
def JsVal.truthy : JsVal → Bool
  | .undefined => false
  | .null => false
  | .bool b => b
  | .num n => n != 0
  | .str s => !(s == "")
  | .obj _ => true

/-- JS `a || b`. -/
def jsOr (a b : JsVal) : JsVal := if a.truthy then a else b

/-- JS string coercion as used in template literals. -/
def JsVal.display : JsVal → String
  | .undefined => "undefined"
  | .null => "null"
  | .bool true => "true"
  | .bool false => "false"
  | .num n => toString n
  | .str s => s
  | .obj _ => "[object Object]"

/-- JS `env || 'default'` for an environment variable (absent or empty → default). -/
def envOr (v : Option String) (d : String) : String :=
  match v with
  | some s => if s == "" then d else s
  | none => d

/-- The value stored in `pendingCodes` for one pairing code.
`webhook.js` stores `{chatId, userId, username, firstName, createdAt, expiresAt}`;
`index.js`'s `handleWebhook` stores the same object without `createdAt`
(hence `createdAt : Option Nat`). -/
structure CodeData where
  chatId : JsVal
  userId : JsVal
  username : JsVal
  firstName : JsVal
  createdAt : Option Nat
  expiresAt : Nat

/-- The `pendingCodes` map: an insertion-ordered association list keyed by code. -/
abbrev Store := List (String × CodeData)

/-- `pendingCodes.get(c)`: value of the first (in a `Map`: only) entry keyed `c`. -/
def lookupCode (c : String) : Store → Option CodeData
  | [] => none
  | p :: rest => if p.1 = c then some p.2 else lookupCode c rest

/-- `pendingCodes.has(c)`. -/
def hasCode (c : String) : Store → Bool
  | [] => false
  | p :: rest => if p.1 = c then true else hasCode c rest

/-- `pendingCodes.delete(c)`: remove the entry keyed `c`, keeping order. -/
def eraseCode (c : String) : Store → Store
  | [] => []
  | p :: rest => if p.1 = c then eraseCode c rest else p :: eraseCode c rest

/-- `pendingCodes.set(c, d)`: update in place if the key exists, else append. -/
def mapSet (c : String) (d : CodeData) : Store → Store
  | [] => [(c, d)]
  | p :: rest => if p.1 = c then (c, d) :: rest else p :: mapSet c d rest

/-- `CODE_EXPIRY_MS = 5 * 60 * 1000`. -/
def CODE_EXPIRY_MS : Nat := 5 * 60 * 1000

/-- `cleanExpiredCodes()`: delete every entry with `now > data.expiresAt`
(iterating a JS `Map` while deleting the entry under the cursor visits the
remaining entries, so the loop filters the whole map). -/
def cleanExpiredCodes (now : Nat) : Store → Store
  | [] => []
  | p :: rest =>
    if now > p.2.expiresAt then cleanExpiredCodes now rest
    else p :: cleanExpiredCodes now rest

/-- Decimal string of a natural number (JS `Number.prototype.toString` on a
non-negative integer): most-significant digit first. -/
def decimalRepr (m : Nat) : String :=
  if m = 0 then "0"
  else String.mk (((Nat.digits 10 m).map (fun d => Char.ofNat (d + 48))).reverse)

/-- `generateCode()` = `Math.floor(100000 + Math.random() * 900000).toString()`.
Since `Math.random() ∈ [0,1)`, `Math.floor(100000 + r*900000) = 100000 + n` with
`n = Math.floor(r*900000) ∈ [0, 900000)`; the randomness is the parameter `n`. -/
def generateCode (n : Nat) : String :=
  decimalRepr (100000 + n)

/-- The `do { code = generateCode() } while (pendingCodes.has(code))` loop,
over the stream `cands` of generator outputs: first candidate not in the store. -/
def issueLoop : List String → Store → Option String
  | [], _ => none
  | c :: rest, s => if hasCode c s then issueLoop rest s else some c

/-- JS `String.prototype.trim`: strip whitespace from both ends. -/
def jsTrim (s : String) : String :=
  String.mk ((((s.data.dropWhile Char.isWhitespace).reverse.dropWhile Char.isWhitespace).reverse))

/-- The regex test `/^\d{6}$/.test(s)`: exactly six ASCII digits. -/
def isSixDigits (s : String) : Bool :=
  s.length == 6 && s.data.all (fun ch => ch.isDigit)

/-- Registry-relevant outcome of a webhook handler call: HTTP status,
resulting `pendingCodes` store, and the issued code (for `/connect`). -/
structure WebhookResult where
  status : Nat
  store : Store
  issued : Option String

/-- The connection configuration returned on successful verification.
`apiEndpoint`/`sessionToken` are `Option` because `index.js`'s `handleVerify`
omits those keys. -/
structure VerifyConfig where
  userId : JsVal
  chatId : JsVal
  username : JsVal
  firstName : JsVal
  apiEndpoint : Option String
  sessionToken : Option String

/-- A verify response: HTTP status, `success` flag, `error` message, `config`. -/
structure VerifyResponse where
  status : Nat
  success : Bool
  error : Option String
  config : Option VerifyConfig

/-- `api/webhook.js` `handler` on a POST request (registry-relevant effects).
`body` is `req.body`, `cands` the generator stream, `now` is `Date.now()`,
`store` the `pendingCodes` map on entry. Returns `none` when the `/connect`
resample loop exhausts `cands` (the JS loop would not yet have terminated). -/
def webhookHandler (body : JsVal) (cands : List String) (now : Nat) (store : Store) :
    Option WebhookResult :=
  match body.getProp "message" with
  | none => some ⟨500, store, none⟩
  | some message =>
    if !message.truthy then some ⟨200, store, none⟩
    else match message.getProp "text" with
    | none => some ⟨500, store, none⟩
    | some mtext =>
      if !mtext.truthy then some ⟨200, store, none⟩
      else match message.getProp "chat" with
      | none => some ⟨500, store, none⟩
      | some chat =>
        match chat.getProp "id" with
        | none => some ⟨500, store, none⟩
        | some chatId =>
          match message.getProp "from" with
          | none => some ⟨500, store, none⟩
          | some sender =>
            match sender.getProp "id" with
            | none => some ⟨500, store, none⟩
            | some userId =>
              match sender.getProp "username", sender.getProp "first_name" with
              | some username, some firstName =>
                match mtext with
                | .str ts =>
                  if jsTrim ts = "/start" then some ⟨200, cleanExpiredCodes now store, none⟩
                  else if jsTrim ts = "/connect" then
                    match issueLoop cands (cleanExpiredCodes now store) with
                    | none => none
                    | some code =>
                      some ⟨200,
                        mapSet code
                          ⟨chatId, userId, jsOr username (.str ""), jsOr firstName (.str "there"),
                            some now, now + CODE_EXPIRY_MS⟩ (cleanExpiredCodes now store),
                        some code⟩
                  else some ⟨200, cleanExpiredCodes now store, none⟩
                | _ => some ⟨500, store, none⟩
              | _, _ => some ⟨500, store, none⟩

/-- `api/index.js` `handleWebhook` (registry-relevant effects). Differs from
`webhook.js` in that the stored record has no `createdAt` and the raw
`message.from.username` is stored (no `|| ''` default). -/
def indexWebhookHandler (body : JsVal) (cands : List String) (now : Nat) (store : Store) :
    Option WebhookResult :=
  match body.getProp "message" with
  | none => some ⟨500, store, none⟩
  | some message =>
    if !message.truthy then some ⟨200, store, none⟩
    else match message.getProp "text" with
    | none => some ⟨500, store, none⟩
    | some mtext =>
      if !mtext.truthy then some ⟨200, store, none⟩
      else match message.getProp "chat" with
      | none => some ⟨500, store, none⟩
      | some chat =>
        match chat.getProp "id" with
        | none => some ⟨500, store, none⟩
        | some chatId =>
          match message.getProp "from" with
          | none => some ⟨500, store, none⟩
          | some sender =>
            match sender.getProp "first_name" with
            | none => some ⟨500, store, none⟩
            | some firstNameRaw =>
              match mtext with
              | .str ts =>
                if jsTrim ts = "/start" then some ⟨200, cleanExpiredCodes now store, none⟩
                else if jsTrim ts = "/connect" then
                  match issueLoop cands (cleanExpiredCodes now store) with
                  | none => none
                  | some code =>
                    match sender.getProp "id", sender.getProp "username" with
                    | some userId, some username =>
                      some ⟨200,
                        mapSet code
                          ⟨chatId, userId, username, jsOr firstNameRaw (.str "there"),
                            none, now + CODE_EXPIRY_MS⟩ (cleanExpiredCodes now store),
                        some code⟩
                    | _, _ => some ⟨500, cleanExpiredCodes now store, none⟩
                else some ⟨200, cleanExpiredCodes now store, none⟩
              | _ => some ⟨500, store, none⟩

/-- `api/verify.js` `handler` on a POST request. `code` is `req.body.code`
(`none` = absent), `apiUrl` is `process.env.OPENCLAW_API_URL`.
Returns the response and the resulting store. -/
def verifyJsHandler (code : Option String) (apiUrl : Option String) (store : Store)
    (now : Nat) : VerifyResponse × Store :=
  match code with
  | none => (⟨400, false, some "Code is required", none⟩, store)
  | some c =>
    if c = "" then (⟨400, false, some "Code is required", none⟩, store)
    else if !isSixDigits (jsTrim c) then (⟨400, false, some "Invalid code format", none⟩, store)
    else
      match lookupCode (jsTrim c) store with
      | none => (⟨404, false, some "Invalid or expired code", none⟩, store)
      | some d =>
        if now > d.expiresAt then
          (⟨410, false, some "Code has expired. Please request a new one.", none⟩,
           eraseCode (jsTrim c) store)
        else
          (⟨200, true, none,
            some ⟨d.userId, d.chatId, jsOr d.username .null, jsOr d.firstName .null,
              some (envOr apiUrl "https://api.openclaw.ai/v1"),
              some ("cw_" ++ d.userId.display ++ "_" ++ toString now)⟩⟩,
           eraseCode (jsTrim c) store)

/-- `api/index.js` `handleVerify`. Sweeps before lookup; a miss and an expired
hit are merged into one 404 branch with a `delete`; the success config carries
no `apiEndpoint` and no `sessionToken`. -/
def indexVerifyHandler (code : Option String) (store : Store) (now : Nat) :
    VerifyResponse × Store :=
  match code with
  | none => (⟨400, false, some "Code required", none⟩, store)
  | some c =>
    if c = "" then (⟨400, false, some "Code required", none⟩, store)
    else if !isSixDigits (jsTrim c) then (⟨400, false, some "Invalid code format", none⟩, store)
    else
      match lookupCode (jsTrim c) (cleanExpiredCodes now store) with
      | none => (⟨404, false, some "Invalid or expired code", none⟩,
                 eraseCode (jsTrim c) (cleanExpiredCodes now store))
      | some d =>
        if now > d.expiresAt then
          (⟨404, false, some "Invalid or expired code", none⟩,
           eraseCode (jsTrim c) (cleanExpiredCodes now store))
        else
          (⟨200, true, none,
            some ⟨d.userId, d.chatId, jsOr d.username .null, jsOr d.firstName .null,
              none, none⟩⟩,
           eraseCode (jsTrim c) (cleanExpiredCodes now store))


/-- Concrete sample records used in witnesses and counterexamples. -/
def sampleLive : CodeData :=
  ⟨.num 42, .num 42, .str "", .str "there", some 0, 300000⟩

/-- A sample record that is already expired at `now = 1000`. -/
def sampleExpired : CodeData :=
  ⟨.num 7, .num 7, .str "ann", .str "Ann", some 0, 10⟩

/-- A well-formed Telegram `/connect` update from user 42. -/
def connectMsg : JsVal :=
  .obj [("message", .obj [("text", .str "/connect"),
    ("chat", .obj [("id", .num 42)]), ("from", .obj [("id", .num 42)])])]

/-- The webhook result of issuing code `"482913"` for `connectMsg` at `now = 0`
on the empty store. -/
def connectRes : WebhookResult :=
  ⟨200, [("482913", ⟨.num 42, .num 42, .str "", .str "there", some 0, 300000⟩)],
   some "482913"⟩

/-- Registry states reachable from the empty store through the four handlers. -/
inductive Reachable : Store → Prop
  | empty : Reachable []
  | webhook (body : JsVal) (cands : List String) (now : Nat) (s : Store) (res : WebhookResult) :
      Reachable s → webhookHandler body cands now s = some res → Reachable res.store
  | indexWebhook (body : JsVal) (cands : List String) (now : Nat) (s : Store)
      (res : WebhookResult) :
      Reachable s → indexWebhookHandler body cands now s = some res → Reachable res.store
  | verifyJs (code apiUrl : Option String) (s : Store) (now : Nat) :
      Reachable s → Reachable (verifyJsHandler code apiUrl s now).2
  | indexVerify (code : Option String) (s : Store) (now : Nat) :
      Reachable s → Reachable (indexVerifyHandler code s now).2


/-! ## Store lemmas -/

theorem lookupCode_eraseCode_self (c : String) (s : Store) :
    lookupCode c (eraseCode c s) = none := by
  induction s with
  | nil => rfl
  | cons p rest ih =>
    by_cases h : p.1 = c
    · simpa [eraseCode, h] using ih
    · simpa [eraseCode, lookupCode, h] using ih

theorem lookupCode_eraseCode_ne (c c' : String) (s : Store) (h : c' ≠ c) :
    lookupCode c' (eraseCode c s) = lookupCode c' s := by
  have h' : ¬ c = c' := fun hh => h hh.symm
  induction s with
  | nil => rfl
  | cons p rest ih =>
    by_cases h1 : p.1 = c
    · simpa [eraseCode, lookupCode, h1, h'] using ih
    · by_cases h2 : p.1 = c'
      · simp [eraseCode, lookupCode, h1, h2, h]
      · simpa [eraseCode, lookupCode, h1, h2] using ih

theorem lookupCode_clean_of_none (now : Nat) (c : String) (s : Store)
    (h : lookupCode c s = none) :
    lookupCode c (cleanExpiredCodes now s) = none := by
  induction s with
  | nil => rfl
  | cons p rest ih =>
    by_cases h1 : p.1 = c
    · simp [lookupCode, h1] at h
    · simp only [lookupCode, h1, if_false] at h
      by_cases h2 : now > p.2.expiresAt
      · simpa [cleanExpiredCodes, h2] using ih h
      · simpa [cleanExpiredCodes, lookupCode, h1, h2] using ih h

theorem lookupCode_clean_of_live (now : Nat) (c : String) (s : Store) (d : CodeData)
    (h : lookupCode c s = some d) (hlive : ¬ now > d.expiresAt) :
    lookupCode c (cleanExpiredCodes now s) = some d := by
  induction s with
  | nil => simp [lookupCode] at h
  | cons p rest ih =>
    by_cases h1 : p.1 = c
    · simp only [lookupCode, h1, if_true, Option.some.injEq] at h
      subst h
      simp [cleanExpiredCodes, hlive, lookupCode, h1]
    · simp only [lookupCode, h1, if_false] at h
      by_cases h2 : now > p.2.expiresAt
      · simpa [cleanExpiredCodes, h2] using ih h
      · simpa [cleanExpiredCodes, lookupCode, h1, h2] using ih h

theorem lookupCode_eq_none_of_not_mem (c : String) (s : Store)
    (h : c ∉ s.map Prod.fst) : lookupCode c s = none := by
  induction s with
  | nil => rfl
  | cons p rest ih =>
    simp only [List.map_cons, List.mem_cons, not_or] at h
    have h1 : p.1 ≠ c := fun hh => h.1 hh.symm
    simpa [lookupCode, h1] using ih h.2

theorem lookupCode_clean_of_expired (now : Nat) (c : String) (s : Store) (d : CodeData)
    (hnd : (s.map Prod.fst).Nodup)
    (h : lookupCode c s = some d) (hexp : now > d.expiresAt) :
    lookupCode c (cleanExpiredCodes now s) = none := by
  induction s with
  | nil => simp [lookupCode] at h
  | cons p rest ih =>
    simp only [List.map_cons, List.nodup_cons] at hnd
    by_cases h1 : p.1 = c
    · simp only [lookupCode, h1, if_true, Option.some.injEq] at h
      subst h
      simp only [cleanExpiredCodes, hexp, if_true]
      apply lookupCode_clean_of_none
      apply lookupCode_eq_none_of_not_mem
      rw [← h1]
      exact hnd.1
    · simp only [lookupCode, h1, if_false] at h
      by_cases h2 : now > p.2.expiresAt
      · simpa [cleanExpiredCodes, h2] using ih hnd.2 h
      · simpa [cleanExpiredCodes, lookupCode, h1, h2] using ih hnd.2 h

theorem mem_cleanExpiredCodes (now : Nat) (s : Store) (c : String) (d : CodeData) :
    (c, d) ∈ cleanExpiredCodes now s ↔ (c, d) ∈ s ∧ ¬ now > d.expiresAt := by
  induction s with
  | nil => simp [cleanExpiredCodes]
  | cons p rest ih =>
    by_cases h : now > p.2.expiresAt
    · simp only [cleanExpiredCodes, h, if_true, List.mem_cons, ih]
      constructor
      · exact fun hh => ⟨Or.inr hh.1, hh.2⟩
      · rintro ⟨hm | hm, hl⟩
        · subst hm; exact absurd h hl
        · exact ⟨hm, hl⟩
    · simp only [cleanExpiredCodes, h, if_false, List.mem_cons, ih]
      constructor
      · rintro (hm | ⟨hm, hl⟩)
        · subst hm; exact ⟨Or.inl rfl, h⟩
        · exact ⟨Or.inr hm, hl⟩
      · rintro ⟨hm | hm, hl⟩
        · exact Or.inl hm
        · exact Or.inr ⟨hm, hl⟩

theorem hasCode_eq_false_iff (c : String) (s : Store) :
    hasCode c s = false ↔ c ∉ s.map Prod.fst := by
  induction s with
  | nil => simp [hasCode]
  | cons p rest ih =>
    by_cases h : p.1 = c
    · simp [hasCode, h]
    · simp only [hasCode, h, if_false, List.map_cons, List.mem_cons, not_or, ih]
      exact ⟨fun hh => ⟨fun hc => h hc.symm, hh⟩, fun hh => hh.2⟩

theorem issueLoop_fresh (cands : List String) (s : Store) (c : String)
    (h : issueLoop cands s = some c) : hasCode c s = false := by
  induction cands with
  | nil => simp [issueLoop] at h
  | cons x rest ih =>
    cases hx : hasCode x s with
    | true =>
      simp only [issueLoop, hx, if_true] at h
      exact ih h
    | false =>
      simp only [issueLoop, hx] at h
      simp at h
      subst h
      exact hx

theorem lookupCode_mapSet_self (c : String) (d : CodeData) (s : Store) :
    lookupCode c (mapSet c d s) = some d := by
  induction s with
  | nil => simp [mapSet, lookupCode]
  | cons p rest ih =>
    by_cases h : p.1 = c
    · simp [mapSet, h, lookupCode]
    · simpa [mapSet, h, lookupCode] using ih

theorem lookupCode_mapSet_ne (c c' : String) (d : CodeData) (s : Store) (h : c' ≠ c) :
    lookupCode c' (mapSet c d s) = lookupCode c' s := by
  have h' : ¬ c = c' := fun hh => h hh.symm
  induction s with
  | nil => simp [mapSet, lookupCode, h']
  | cons p rest ih =>
    by_cases h1 : p.1 = c
    · have hp : ¬ p.1 = c' := by rw [h1]; exact h'
      simp [mapSet, h1, lookupCode, h', hp]
    · by_cases h2 : p.1 = c'
      · simp [mapSet, h1, lookupCode, h2, h]
      · simpa [mapSet, h1, lookupCode, h2] using ih

theorem keys_mapSet_nodup (c : String) (d : CodeData) (s : Store)
    (hnd : (s.map Prod.fst).Nodup) : ((mapSet c d s).map Prod.fst).Nodup := by
  induction s with
  | nil => simp [mapSet]
  | cons p rest ih =>
    simp only [List.map_cons, List.nodup_cons] at hnd
    by_cases h : p.1 = c
    · simp only [mapSet, h, if_true, List.map_cons, List.nodup_cons]
      exact ⟨by rw [← h]; exact hnd.1, hnd.2⟩
    · simp only [mapSet, h, if_false, List.map_cons, List.nodup_cons]
      refine ⟨?_, ih hnd.2⟩
      intro hmem
      have : ∀ t : Store, p.1 ∉ t.map Prod.fst → p.1 ≠ c → p.1 ∉ (mapSet c d t).map Prod.fst := by
        intro t
        induction t with
        | nil => intro _ hne; simpa [mapSet] using fun hh => hne hh
        | cons q qrest ihq =>
          intro hmem hne
          simp only [List.map_cons, List.mem_cons, not_or] at hmem
          by_cases hq : q.1 = c
          · simp only [mapSet, hq, if_true, List.map_cons, List.mem_cons, not_or]
            exact ⟨hne, hmem.2⟩
          · simp only [mapSet, hq, if_false, List.map_cons, List.mem_cons, not_or]
            exact ⟨hmem.1, ihq hmem.2 hne⟩
      exact this rest hnd.1 h hmem

theorem keys_cleanExpiredCodes_sublist (now : Nat) (s : Store) :
    ((cleanExpiredCodes now s).map Prod.fst).Sublist (s.map Prod.fst) := by
  induction s with
  | nil => simp [cleanExpiredCodes]
  | cons p rest ih =>
    by_cases h : now > p.2.expiresAt
    · simp only [cleanExpiredCodes, h, if_true, List.map_cons]
      exact ih.cons _
    · simp only [cleanExpiredCodes, h, if_false, List.map_cons]
      exact ih.cons₂ _

theorem keys_eraseCode_sublist (c : String) (s : Store) :
    ((eraseCode c s).map Prod.fst).Sublist (s.map Prod.fst) := by
  induction s with
  | nil => simp [eraseCode]
  | cons p rest ih =>
    by_cases h : p.1 = c
    · simp only [eraseCode, h, if_true, List.map_cons]
      exact ih.cons _
    · simp only [eraseCode, h, if_false, List.map_cons]
      exact ih.cons₂ _

/-! ## Handler shape lemmas -/

theorem verifyJsHandler_store (code apiUrl : Option String) (s : Store) (now : Nat) :
    (verifyJsHandler code apiUrl s now).2 = s ∨
    ∃ k, (verifyJsHandler code apiUrl s now).2 = eraseCode k s := by
  unfold verifyJsHandler
  split
  · exact Or.inl rfl
  · split
    · exact Or.inl rfl
    · split
      · exact Or.inl rfl
      · split
        · exact Or.inl rfl
        · split
          · exact Or.inr ⟨_, rfl⟩
          · exact Or.inr ⟨_, rfl⟩

theorem indexVerifyHandler_store (code : Option String) (s : Store) (now : Nat) :
    (indexVerifyHandler code s now).2 = s ∨
    ∃ k, (indexVerifyHandler code s now).2 = eraseCode k (cleanExpiredCodes now s) := by
  unfold indexVerifyHandler
  split
  · exact Or.inl rfl
  · split
    · exact Or.inl rfl
    · split
      · exact Or.inl rfl
      · split
        · exact Or.inr ⟨_, rfl⟩
        · split
          · exact Or.inr ⟨_, rfl⟩
          · exact Or.inr ⟨_, rfl⟩

theorem webhookHandler_store (body : JsVal) (cands : List String) (now : Nat) (s : Store)
    (res : WebhookResult) (h : webhookHandler body cands now s = some res) :
    res.store = s ∨ res.store = cleanExpiredCodes now s ∨
    ∃ c d, issueLoop cands (cleanExpiredCodes now s) = some c ∧
      res.store = mapSet c d (cleanExpiredCodes now s) := by
  unfold webhookHandler at h
  repeat' split at h
  all_goals first
    | exact Option.noConfusion h
    | (injection h with h2; subst h2; exact Or.inl rfl)
    | (injection h with h2; subst h2; exact Or.inr (Or.inl rfl))
    | (injection h with h2; subst h2;
       refine Or.inr (Or.inr ⟨_, _, ?_, rfl⟩);
       assumption)

theorem indexWebhookHandler_store (body : JsVal) (cands : List String) (now : Nat) (s : Store)
    (res : WebhookResult) (h : indexWebhookHandler body cands now s = some res) :
    res.store = s ∨ res.store = cleanExpiredCodes now s ∨
    ∃ c d, issueLoop cands (cleanExpiredCodes now s) = some c ∧
      res.store = mapSet c d (cleanExpiredCodes now s) := by
  unfold indexWebhookHandler at h
  repeat' split at h
  all_goals first
    | exact Option.noConfusion h
    | (injection h with h2; subst h2; exact Or.inl rfl)
    | (injection h with h2; subst h2; exact Or.inr (Or.inl rfl))
    | (injection h with h2; subst h2;
       refine Or.inr (Or.inr ⟨_, _, ?_, rfl⟩);
       assumption)

theorem webhookHandler_issued (body : JsVal) (cands : List String) (now : Nat) (s : Store)
    (res : WebhookResult) (c : String)
    (h : webhookHandler body cands now s = some res) (hc : res.issued = some c) :
    hasCode c (cleanExpiredCodes now s) = false ∧
    ∃ chatId userId username firstName,
      res.store =
        mapSet c ⟨chatId, userId, username, firstName, some now, now + CODE_EXPIRY_MS⟩
          (cleanExpiredCodes now s) := by
  unfold webhookHandler at h
  repeat' split at h
  all_goals first
    | exact Option.noConfusion h
    | (injection h with h2; subst h2; exact Option.noConfusion hc)
    | (injection h with h2; subst h2;
       injection hc with hc2; subst hc2;
       exact ⟨issueLoop_fresh _ _ _ (by assumption), _, _, _, _, rfl⟩)

theorem isSixDigits_ne_empty (c : String) (h : isSixDigits c = true) : ¬ c = "" := by
  intro he
  subst he
  exact absurd h (by decide)

theorem reachable_keys_nodup (s : Store) (h : Reachable s) : (s.map Prod.fst).Nodup := by
  induction h with
  | empty => simp
  | webhook body cands now s res _ heq ih =>
    rcases webhookHandler_store body cands now s res heq with h1 | h1 | ⟨c, d, _, h1⟩
    · rw [h1]; exact ih
    · rw [h1]; exact List.Nodup.sublist (keys_cleanExpiredCodes_sublist now s) ih
    · rw [h1]
      exact keys_mapSet_nodup c d _ (List.Nodup.sublist (keys_cleanExpiredCodes_sublist now s) ih)
  | indexWebhook body cands now s res _ heq ih =>
    rcases indexWebhookHandler_store body cands now s res heq with h1 | h1 | ⟨c, d, _, h1⟩
    · rw [h1]; exact ih
    · rw [h1]; exact List.Nodup.sublist (keys_cleanExpiredCodes_sublist now s) ih
    · rw [h1]
      exact keys_mapSet_nodup c d _ (List.Nodup.sublist (keys_cleanExpiredCodes_sublist now s) ih)
  | verifyJs code apiUrl s now _ ih =>
    rcases verifyJsHandler_store code apiUrl s now with h1 | ⟨k, h1⟩
    · rw [h1]; exact ih
    · rw [h1]; exact List.Nodup.sublist (keys_eraseCode_sublist k s) ih
  | indexVerify code s now _ ih =>
    rcases indexVerifyHandler_store code s now with h1 | ⟨k, h1⟩
    · rw [h1]; exact ih
    · rw [h1]
      exact List.Nodup.sublist (keys_eraseCode_sublist k _)
        (List.Nodup.sublist (keys_cleanExpiredCodes_sublist now s) ih)

/-! ## Decimal representation lemmas -/

theorem digits_six (m : Nat) (h1 : 100000 ≤ m) (h2 : m ≤ 999999) :
    Nat.digits 10 m =
      [m % 10, m / 10 % 10, m / 100 % 10, m / 1000 % 10, m / 10000 % 10, m / 100000] := by
  have t : (1:ℕ) < 10 := by norm_num
  rw [Nat.digits_def' t (show 0 < m by omega)]
  rw [Nat.digits_def' t (show 0 < m / 10 by omega)]
  rw [show m / 10 / 10 = m / 100 by omega]
  rw [Nat.digits_def' t (show 0 < m / 100 by omega)]
  rw [show m / 100 / 10 = m / 1000 by omega]
  rw [Nat.digits_def' t (show 0 < m / 1000 by omega)]
  rw [show m / 1000 / 10 = m / 10000 by omega]
  rw [Nat.digits_def' t (show 0 < m / 10000 by omega)]
  rw [show m / 10000 / 10 = m / 100000 by omega]
  rw [Nat.digits_def' t (show 0 < m / 100000 by omega)]
  rw [show m / 100000 % 10 = m / 100000 by omega]
  rw [show m / 100000 / 10 = 0 by omega]
  rw [Nat.digits_zero]

theorem digitChar_isDigit (d : Nat) (h : d < 10) : (Char.ofNat (d + 48)).isDigit = true := by
  interval_cases d <;> decide

theorem digitChar_ne_zeroChar (d : Nat) (h1 : 1 ≤ d) (h2 : d ≤ 9) :
    Char.ofNat (d + 48) ≠ '0' := by
  interval_cases d <;> decide

/-- C6: every code produced by the generator is the decimal string of an integer
in the range 100000–999999 inclusive, hence a string of exactly 6 digits whose
first character is never '0'. -/
theorem generated_code_format (n : Nat) (h : n < 900000) :
    generateCode n = decimalRepr (100000 + n) ∧
    100000 ≤ 100000 + n ∧ 100000 + n ≤ 999999 ∧
    (generateCode n).length = 6 ∧
    ((generateCode n).data.all (fun ch => ch.isDigit)) = true ∧
    (generateCode n).data.head? ≠ some '0' ∧
    isSixDigits (generateCode n) = true := by
  have h1 : 100000 ≤ 100000 + n := by omega
  have h2 : 100000 + n ≤ 999999 := by omega
  have hd := digits_six (100000 + n) h1 h2
  have hne : ¬ (100000 + n = 0) := by omega
  have hdata : (generateCode n).data =
      [Char.ofNat ((100000 + n) / 100000 + 48), Char.ofNat ((100000 + n) / 10000 % 10 + 48),
       Char.ofNat ((100000 + n) / 1000 % 10 + 48), Char.ofNat ((100000 + n) / 100 % 10 + 48),
       Char.ofNat ((100000 + n) / 10 % 10 + 48), Char.ofNat ((100000 + n) % 10 + 48)] := by
    unfold generateCode decimalRepr
    rw [if_neg hne, hd]
    rfl
  have hlen : (generateCode n).length = 6 := by
    simp [String.length, hdata]
  have hall : ((generateCode n).data.all (fun ch => ch.isDigit)) = true := by
    rw [hdata]
    simp only [List.all_cons, List.all_nil, Bool.and_eq_true, Bool.and_true]
    exact ⟨digitChar_isDigit _ (by omega), digitChar_isDigit _ (by omega),
      digitChar_isDigit _ (by omega), digitChar_isDigit _ (by omega),
      digitChar_isDigit _ (by omega), digitChar_isDigit _ (by omega)⟩
  have hhead : (generateCode n).data.head? ≠ some '0' := by
    simp only [hdata, List.head?_cons, ne_eq, Option.some.injEq]
    exact digitChar_ne_zeroChar _ (by omega) (by omega)
  refine ⟨rfl, h1, h2, hlen, hall, hhead, ?_⟩
  simp [isSixDigits, hlen, hall]

/-- Witness for `generated_code_format` at `n = 382913` (code `"482913"`). -/
theorem generated_code_format_witness :
    382913 < 900000 ∧
    (generateCode 382913 = decimalRepr (100000 + 382913) ∧
     100000 ≤ 100000 + 382913 ∧ 100000 + 382913 ≤ 999999 ∧
     (generateCode 382913).length = 6 ∧
     ((generateCode 382913).data.all (fun ch => ch.isDigit)) = true ∧
     (generateCode 382913).data.head? ≠ some '0' ∧
     isSixDigits (generateCode 382913) = true) :=
  ⟨by decide, generated_code_format 382913 (by decide)⟩

/-- C4: a redeem call whose input does not trim to exactly six ASCII digits
(or carries no code at all) fails with a 400-class response before any store
lookup: the store is unchanged and the response does not depend on the store,
in both `verify.js`'s handler and `index.js`'s `handleVerify`. -/
theorem invalid_format_no_lookup (c : String) (apiUrl : Option String) (s s₂ : Store)
    (now : Nat) (hbad : isSixDigits (jsTrim c) = false) :
    ((verifyJsHandler (some c) apiUrl s now).1.status = 400 ∧
     (verifyJsHandler (some c) apiUrl s now).2 = s ∧
     (verifyJsHandler (some c) apiUrl s now).1 = (verifyJsHandler (some c) apiUrl s₂ now).1) ∧
    ((verifyJsHandler none apiUrl s now).1.status = 400 ∧
     (verifyJsHandler none apiUrl s now).2 = s) ∧
    ((indexVerifyHandler (some c) s now).1.status = 400 ∧
     (indexVerifyHandler (some c) s now).2 = s ∧
     (indexVerifyHandler (some c) s now).1 = (indexVerifyHandler (some c) s₂ now).1) ∧
    ((indexVerifyHandler none s now).1.status = 400 ∧
     (indexVerifyHandler none s now).2 = s) := by
  by_cases he : c = ""
  · subst he
    simp [verifyJsHandler, indexVerifyHandler]
  · simp [verifyJsHandler, indexVerifyHandler, he, hbad]

/-- Witness for `invalid_format_no_lookup` at the spec's scenario input `"12a456"`. -/
theorem invalid_format_no_lookup_witness :
    isSixDigits (jsTrim "12a456") = false ∧
    (((verifyJsHandler (some "12a456") none [("123456", sampleLive)] 7).1.status = 400 ∧
      (verifyJsHandler (some "12a456") none [("123456", sampleLive)] 7).2 =
        [("123456", sampleLive)] ∧
      (verifyJsHandler (some "12a456") none [("123456", sampleLive)] 7).1 =
        (verifyJsHandler (some "12a456") none [] 7).1) ∧
     ((verifyJsHandler none none [("123456", sampleLive)] 7).1.status = 400 ∧
      (verifyJsHandler none none [("123456", sampleLive)] 7).2 = [("123456", sampleLive)]) ∧
     ((indexVerifyHandler (some "12a456") [("123456", sampleLive)] 7).1.status = 400 ∧
      (indexVerifyHandler (some "12a456") [("123456", sampleLive)] 7).2 =
        [("123456", sampleLive)] ∧
      (indexVerifyHandler (some "12a456") [("123456", sampleLive)] 7).1 =
        (indexVerifyHandler (some "12a456") [] 7).1) ∧
     ((indexVerifyHandler none [("123456", sampleLive)] 7).1.status = 400 ∧
      (indexVerifyHandler none [("123456", sampleLive)] 7).2 = [("123456", sampleLive)])) :=
  ⟨by decide, invalid_format_no_lookup "12a456" none [("123456", sampleLive)] [] 7 (by decide)⟩

/-- C1: a successful redeem removes the entry for the redeemed code, and a
subsequent redeem of the same code against the resulting store fails with 404
(NotFound), in both `verify.js`'s handler and `index.js`'s `handleVerify`. -/
theorem redeem_one_time_consumption (r : String) (apiUrl apiUrl' : Option String)
    (s : Store) (now now' : Nat) :
    ((verifyJsHandler (some r) apiUrl s now).1.status = 200 →
      lookupCode (jsTrim r) (verifyJsHandler (some r) apiUrl s now).2 = none ∧
      (verifyJsHandler (some r) apiUrl'
        ((verifyJsHandler (some r) apiUrl s now).2) now').1.status = 404) ∧
    ((indexVerifyHandler (some r) s now).1.status = 200 →
      lookupCode (jsTrim r) (indexVerifyHandler (some r) s now).2 = none ∧
      (indexVerifyHandler (some r)
        ((indexVerifyHandler (some r) s now).2) now').1.status = 404) := by
  constructor
  · intro h200
    by_cases he : r = ""
    · simp [verifyJsHandler, he] at h200
    by_cases hf : isSixDigits (jsTrim r) = true
    · rcases hl : lookupCode (jsTrim r) s with _ | d
      · simp [verifyJsHandler, he, hf, hl] at h200
      · by_cases hex : now > d.expiresAt
        · simp [verifyJsHandler, he, hf, hl, hex] at h200
        · have hstore : (verifyJsHandler (some r) apiUrl s now).2 = eraseCode (jsTrim r) s := by
            simp [verifyJsHandler, he, hf, hl, hex]
          rw [hstore]
          exact ⟨lookupCode_eraseCode_self _ _,
            by simp [verifyJsHandler, he, hf, lookupCode_eraseCode_self]⟩
    · simp [verifyJsHandler, he, hf] at h200
  · intro h200
    by_cases he : r = ""
    · simp [indexVerifyHandler, he] at h200
    by_cases hf : isSixDigits (jsTrim r) = true
    · rcases hl : lookupCode (jsTrim r) (cleanExpiredCodes now s) with _ | d
      · simp [indexVerifyHandler, he, hf, hl] at h200
      · by_cases hex : now > d.expiresAt
        · simp [indexVerifyHandler, he, hf, hl, hex] at h200
        · have hstore : (indexVerifyHandler (some r) s now).2 =
              eraseCode (jsTrim r) (cleanExpiredCodes now s) := by
            simp [indexVerifyHandler, he, hf, hl, hex]
          rw [hstore]
          have h2 : lookupCode (jsTrim r)
              (cleanExpiredCodes now' (eraseCode (jsTrim r) (cleanExpiredCodes now s))) = none :=
            lookupCode_clean_of_none _ _ _ (lookupCode_eraseCode_self _ _)
          exact ⟨lookupCode_eraseCode_self _ _,
            by simp [indexVerifyHandler, he, hf, h2]⟩
    · simp [indexVerifyHandler, he, hf] at h200

/-- Witness for `redeem_one_time_consumption`: the spec's scenario — code
`"482913"` issued for user 42, redeemed successfully, then redeemed again. -/
theorem redeem_one_time_consumption_witness :
    ((verifyJsHandler (some "482913") none [("482913", sampleLive)] 10).1.status = 200 ∧
     lookupCode (jsTrim "482913")
       (verifyJsHandler (some "482913") none [("482913", sampleLive)] 10).2 = none ∧
     (verifyJsHandler (some "482913") none
       ((verifyJsHandler (some "482913") none [("482913", sampleLive)] 10).2) 11).1.status = 404) ∧
    ((indexVerifyHandler (some "482913") [("482913", sampleLive)] 10).1.status = 200 ∧
     lookupCode (jsTrim "482913")
       (indexVerifyHandler (some "482913") [("482913", sampleLive)] 10).2 = none ∧
     (indexVerifyHandler (some "482913")
       ((indexVerifyHandler (some "482913") [("482913", sampleLive)] 10).2) 11).1.status = 404) := by
  have h := redeem_one_time_consumption "482913" none none [("482913", sampleLive)] 10 11
  have h1 := h.1 (by rfl)
  have h2 := h.2 (by rfl)
  exact ⟨⟨by rfl, h1.1, h1.2⟩, ⟨by rfl, h2.1, h2.2⟩⟩

/-- C10: a redeem call leaves every unexpired entry for a different code in
place with the same data; a NotFound (404) redeem removes no unexpired entry.
Holds for both `verify.js`'s handler and `index.js`'s `handleVerify`. -/
theorem redeem_frame_property (r : String) (apiUrl : Option String) (s : Store) (now : Nat)
    (c' : String) (d' : CodeData) (hmem : lookupCode c' s = some d')
    (hlive : ¬ now > d'.expiresAt) :
    (c' ≠ jsTrim r → lookupCode c' (verifyJsHandler (some r) apiUrl s now).2 = some d') ∧
    (c' ≠ jsTrim r → lookupCode c' (indexVerifyHandler (some r) s now).2 = some d') ∧
    ((verifyJsHandler (some r) apiUrl s now).1.status = 404 →
      lookupCode c' (verifyJsHandler (some r) apiUrl s now).2 = some d') ∧
    ((indexVerifyHandler (some r) s now).1.status = 404 →
      lookupCode c' (indexVerifyHandler (some r) s now).2 = some d') := by
  have hcl := lookupCode_clean_of_live now c' s d' hmem hlive
  refine ⟨?_, ?_, ?_, ?_⟩
  · intro hne
    by_cases he : r = ""
    · simp [verifyJsHandler, he, hmem]
    by_cases hf : isSixDigits (jsTrim r) = true
    · rcases hl : lookupCode (jsTrim r) s with _ | d
      · simp [verifyJsHandler, he, hf, hl, hmem]
      · by_cases hex : now > d.expiresAt
        · simp [verifyJsHandler, he, hf, hl, hex,
            lookupCode_eraseCode_ne _ _ _ hne, hmem]
        · simp [verifyJsHandler, he, hf, hl, hex,
            lookupCode_eraseCode_ne _ _ _ hne, hmem]
    · simp [verifyJsHandler, he, hf, hmem]
  · intro hne
    by_cases he : r = ""
    · simp [indexVerifyHandler, he, hmem]
    by_cases hf : isSixDigits (jsTrim r) = true
    · rcases hl : lookupCode (jsTrim r) (cleanExpiredCodes now s) with _ | d
      · simp [indexVerifyHandler, he, hf, hl,
          lookupCode_eraseCode_ne _ _ _ hne, hcl]
      · by_cases hex : now > d.expiresAt
        · simp [indexVerifyHandler, he, hf, hl, hex,
            lookupCode_eraseCode_ne _ _ _ hne, hcl]
        · simp [indexVerifyHandler, he, hf, hl, hex,
            lookupCode_eraseCode_ne _ _ _ hne, hcl]
    · simp [indexVerifyHandler, he, hf, hmem]
  · intro h404
    by_cases he : r = ""
    · simp [verifyJsHandler, he] at h404
    by_cases hf : isSixDigits (jsTrim r) = true
    · rcases hl : lookupCode (jsTrim r) s with _ | d
      · simp [verifyJsHandler, he, hf, hl, hmem]
      · by_cases hex : now > d.expiresAt
        · simp [verifyJsHandler, he, hf, hl, hex] at h404
        · simp [verifyJsHandler, he, hf, hl, hex] at h404
    · simp [verifyJsHandler, he, hf] at h404
  · intro h404
    by_cases he : r = ""
    · simp [indexVerifyHandler, he] at h404
    by_cases hf : isSixDigits (jsTrim r) = true
    · rcases hl : lookupCode (jsTrim r) (cleanExpiredCodes now s) with _ | d
      · have hne : c' ≠ jsTrim r := by
          intro hh
          rw [hh] at hcl
          rw [hcl] at hl
          exact Option.noConfusion hl
        simp [indexVerifyHandler, he, hf, hl,
          lookupCode_eraseCode_ne _ _ _ hne, hcl]
      · by_cases hex : now > d.expiresAt
        · have hne : c' ≠ jsTrim r := by
            intro hh
            rw [hh] at hcl
            rw [hcl] at hl
            injection hl with hl2
            rw [← hl2] at hex
            exact hlive hex
          simp [indexVerifyHandler, he, hf, hl, hex,
            lookupCode_eraseCode_ne _ _ _ hne, hcl]
        · simp [indexVerifyHandler, he, hf, hl, hex] at h404
    · simp [indexVerifyHandler, he, hf] at h404

/-- Witness for `redeem_frame_property`: redeeming `"482913"` leaves the live
entry for `"123456"` untouched in both handlers. -/
theorem redeem_frame_property_witness :
    lookupCode "123456" [("123456", sampleLive), ("482913", sampleLive)] = some sampleLive ∧
    ¬ (10 : Nat) > sampleLive.expiresAt ∧
    lookupCode "123456"
      (verifyJsHandler (some "482913") none
        [("123456", sampleLive), ("482913", sampleLive)] 10).2 = some sampleLive ∧
    lookupCode "123456"
      (indexVerifyHandler (some "482913")
        [("123456", sampleLive), ("482913", sampleLive)] 10).2 = some sampleLive := by
  have h := redeem_frame_property "482913" none
    [("123456", sampleLive), ("482913", sampleLive)] 10 "123456" sampleLive
    (by rfl) (by decide)
  exact ⟨by rfl, by decide, h.1 (by decide), h.2.1 (by decide)⟩

/-- C2 counterexample: in `index.js`'s `handleVerify`, a well-formed code that
is present in the store but expired yields status 404, not a 410-class
response, so the caller cannot distinguish it from NotFound there. -/
theorem expired_redeem_status_counterexample :
    lookupCode "123456" [("123456", sampleExpired)] = some sampleExpired ∧
    sampleExpired.expiresAt < 1000 ∧
    (indexVerifyHandler (some "123456") [("123456", sampleExpired)] 1000).1.status = 404 ∧
    (indexVerifyHandler (some "123456") [("123456", sampleExpired)] 1000).1.status ≠ 410 :=
  ⟨rfl, by decide, rfl, by decide⟩

/-- C2 (amended): `verify.js` deletes an expired-but-present record and fails
with 410, distinguishable from its 404 NotFound; `index.js`'s `handleVerify`
sweeps expired records before lookup, so the same situation yields 404 there,
indistinguishable from NotFound (the record is still deleted). -/
theorem expired_redeem_distinction (r : String) (apiUrl : Option String) (s : Store)
    (now : Nat) (d : CodeData)
    (hf : isSixDigits (jsTrim r) = true) (hnd : (s.map Prod.fst).Nodup) :
    (lookupCode (jsTrim r) s = some d → now > d.expiresAt →
      (verifyJsHandler (some r) apiUrl s now).1.status = 410 ∧
      (verifyJsHandler (some r) apiUrl s now).2 = eraseCode (jsTrim r) s ∧
      lookupCode (jsTrim r) (verifyJsHandler (some r) apiUrl s now).2 = none) ∧
    (lookupCode (jsTrim r) s = none →
      (verifyJsHandler (some r) apiUrl s now).1.status = 404 ∧
      (verifyJsHandler (some r) apiUrl s now).2 = s) ∧
    (lookupCode (jsTrim r) s = some d → now > d.expiresAt →
      (indexVerifyHandler (some r) s now).1.status = 404 ∧
      lookupCode (jsTrim r) (indexVerifyHandler (some r) s now).2 = none) := by
  have he : ¬ r = "" := by
    intro hh
    rw [hh] at hf
    exact absurd hf (by decide)
  refine ⟨?_, ?_, ?_⟩
  · intro hl hex
    refine ⟨by simp [verifyJsHandler, he, hf, hl, hex], by simp [verifyJsHandler, he, hf, hl, hex], ?_⟩
    have hstore : (verifyJsHandler (some r) apiUrl s now).2 = eraseCode (jsTrim r) s := by
      simp [verifyJsHandler, he, hf, hl, hex]
    rw [hstore]
    exact lookupCode_eraseCode_self _ _
  · intro hl
    exact ⟨by simp [verifyJsHandler, he, hf, hl], by simp [verifyJsHandler, he, hf, hl]⟩
  · intro hl hex
    have hcl := lookupCode_clean_of_expired now (jsTrim r) s d hnd hl hex
    refine ⟨by simp [indexVerifyHandler, he, hf, hcl], ?_⟩
    have hstore : (indexVerifyHandler (some r) s now).2 =
        eraseCode (jsTrim r) (cleanExpiredCodes now s) := by
      simp [indexVerifyHandler, he, hf, hcl]
    rw [hstore]
    exact lookupCode_eraseCode_self _ _

/-- Witness for `expired_redeem_distinction`: an expired code `"123456"`
redeemed at `now = 1000` gives 410 in `verify.js` and 404 in `index.js`. -/
theorem expired_redeem_distinction_witness :
    isSixDigits (jsTrim "123456") = true ∧
    (verifyJsHandler (some "123456") none [("123456", sampleExpired)] 1000).1.status = 410 ∧
    lookupCode (jsTrim "123456")
      (verifyJsHandler (some "123456") none [("123456", sampleExpired)] 1000).2 = none ∧
    (verifyJsHandler (some "999999") none [("123456", sampleExpired)] 1000).1.status = 404 ∧
    (indexVerifyHandler (some "123456") [("123456", sampleExpired)] 1000).1.status = 404 := by
  have h := expired_redeem_distinction "123456" none [("123456", sampleExpired)] 1000
    sampleExpired (by decide) (by decide)
  have h1 := h.1 (by rfl) (by decide)
  have h3 := h.2.2 (by rfl) (by decide)
  have h2 := (expired_redeem_distinction "999999" none [("123456", sampleExpired)] 1000
    sampleExpired (by decide) (by decide)).2.1 (by rfl)
  exact ⟨by decide, h1.1, h1.2.2, h2.1, h3.1⟩

/-- C3: issuing through `webhook.js` stores `createdAt = now` and
`expiresAt = now + CODE_EXPIRY_MS` (five minutes, fixed at creation); redeeming
the issued code through `verify.js` succeeds at any `now' ≤ expiresAt` and
fails (410, not 200) at any `now' > expiresAt` — the test is the strict
comparison `now > expiresAt`. -/
theorem expiry_semantics (body : JsVal) (cands : List String) (now : Nat) (s : Store)
    (res : WebhookResult) (c : String) (apiUrl : Option String)
    (h : webhookHandler body cands now s = some res) (hc : res.issued = some c)
    (htrim : jsTrim c = c) (hf : isSixDigits c = true) :
    ∃ d, lookupCode c res.store = some d ∧
      d.createdAt = some now ∧
      d.expiresAt = now + CODE_EXPIRY_MS ∧
      CODE_EXPIRY_MS = 5 * 60 * 1000 ∧
      (∀ now', now' ≤ d.expiresAt →
        (verifyJsHandler (some c) apiUrl res.store now').1.status = 200) ∧
      (∀ now', d.expiresAt < now' →
        (verifyJsHandler (some c) apiUrl res.store now').1.status = 410 ∧
        (verifyJsHandler (some c) apiUrl res.store now').1.status ≠ 200) := by
  obtain ⟨hfresh, chatId, userId, username, firstName, hstore⟩ :=
    webhookHandler_issued body cands now s res c h hc
  have hlk : lookupCode c res.store =
      some ⟨chatId, userId, username, firstName, some now, now + CODE_EXPIRY_MS⟩ := by
    rw [hstore]
    exact lookupCode_mapSet_self _ _ _
  have he : ¬ c = "" := isSixDigits_ne_empty c hf
  refine ⟨_, hlk, rfl, rfl, rfl, ?_, ?_⟩
  · intro now' hle
    have hex : ¬ now' > now + CODE_EXPIRY_MS := Nat.not_lt.mpr hle
    simp [verifyJsHandler, he, htrim, hf, hlk, hex]
  · intro now' hgt
    constructor
    · simp [verifyJsHandler, he, htrim, hf, hlk, hgt]
    · simp [verifyJsHandler, he, htrim, hf, hlk, hgt]

/-- Witness for `expiry_semantics`: code `"482913"` issued at `t = 0`. -/
theorem expiry_semantics_witness :
    webhookHandler connectMsg ["482913"] 0 [] = some connectRes ∧
    connectRes.issued = some "482913" ∧
    jsTrim "482913" = "482913" ∧
    isSixDigits "482913" = true ∧
    (∃ d, lookupCode "482913" connectRes.store = some d ∧
      d.createdAt = some 0 ∧
      d.expiresAt = 0 + CODE_EXPIRY_MS ∧
      CODE_EXPIRY_MS = 5 * 60 * 1000 ∧
      (∀ now', now' ≤ d.expiresAt →
        (verifyJsHandler (some "482913") none connectRes.store now').1.status = 200) ∧
      (∀ now', d.expiresAt < now' →
        (verifyJsHandler (some "482913") none connectRes.store now').1.status = 410 ∧
        (verifyJsHandler (some "482913") none connectRes.store now').1.status ≠ 200)) :=
  ⟨rfl, rfl, by decide, by decide,
   expiry_semantics connectMsg ["482913"] 0 [] connectRes "482913" none rfl rfl
     (by decide) (by decide)⟩

/-- C5: in every reachable registry state the codes are pairwise distinct
(at most one pending connection per code value), because the issue loop
resamples until its candidate collides with no currently-stored code —
expired-but-unswept entries included, since `hasCode` never consults expiry. -/
theorem code_uniqueness (s : Store) (cands : List String) (t : Store) (c : String) :
    (Reachable s → (s.map Prod.fst).Nodup) ∧
    (issueLoop cands t = some c → hasCode c t = false) ∧
    (hasCode c t = true → issueLoop cands t ≠ some c) := by
  refine ⟨reachable_keys_nodup s, issueLoop_fresh cands t c, ?_⟩
  intro hh hil
  rw [issueLoop_fresh cands t c hil] at hh
  exact Bool.noConfusion hh

/-- Witness for `code_uniqueness`: the store after issuing `"482913"` has
distinct keys; a loop over candidates `["482913", "123456"]` against a store
already holding `"482913"` (expiry irrelevant) skips to `"123456"`. -/
theorem code_uniqueness_witness :
    (connectRes.store.map Prod.fst).Nodup ∧
    hasCode "123456" [("482913", sampleLive)] = false ∧
    issueLoop ["482913", "123456"] [("482913", sampleLive)] ≠ some "482913" := by
  have hreach : Reachable connectRes.store :=
    Reachable.webhook connectMsg ["482913"] 0 [] connectRes Reachable.empty rfl
  have h1 := (code_uniqueness connectRes.store [] [] "0").1 hreach
  have h2 := (code_uniqueness connectRes.store ["482913", "123456"]
    [("482913", sampleLive)] "123456").2.1 (by rfl)
  have h3 := (code_uniqueness connectRes.store ["482913", "123456"]
    [("482913", sampleLive)] "482913").2.2 (by rfl)
  exact ⟨h1, h2, h3⟩

theorem mem_mapSet (p : String × CodeData) (c : String) (d : CodeData) (t : Store)
    (h : p ∈ mapSet c d t) : p = (c, d) ∨ p ∈ t := by
  induction t with
  | nil => simpa [mapSet] using h
  | cons q rest ih =>
    by_cases hq : q.1 = c
    · simp only [mapSet, hq, if_true, List.mem_cons] at h
      rcases h with h | h
      · exact Or.inl h
      · exact Or.inr (List.mem_cons_of_mem q h)
    · simp only [mapSet, hq, if_false, List.mem_cons] at h
      rcases h with h | h
      · exact Or.inr (by rw [h]; exact List.mem_cons_self q rest)
      · rcases ih h with h2 | h2
        · exact Or.inl h2
        · exact Or.inr (List.mem_cons_of_mem q h2)

theorem mem_eraseCode (p : String × CodeData) (c : String) (t : Store)
    (h : p ∈ eraseCode c t) : p ∈ t := by
  induction t with
  | nil => simp [eraseCode] at h
  | cons q rest ih =>
    by_cases hq : q.1 = c
    · simp only [eraseCode, hq, if_true] at h
      exact List.mem_cons_of_mem q (ih h)
    · simp only [eraseCode, hq, if_false, List.mem_cons] at h
      rcases h with h | h
      · rw [h]; exact List.mem_cons_self q rest
      · exact List.mem_cons_of_mem q (ih h)

/-- C7 counterexample: `verify.js` runs no sweep before the redeem lookup —
a successful redeem of `"222222"` leaves the expired record for `"111111"`
in the store, which a sweep would have removed. -/
theorem sweep_before_redeem_counterexample :
    sampleExpired.expiresAt < 1000 ∧
    (verifyJsHandler (some "222222") none
      [("111111", sampleExpired), ("222222", sampleLive)] 1000).1.status = 200 ∧
    lookupCode "111111"
      (verifyJsHandler (some "222222") none
        [("111111", sampleExpired), ("222222", sampleLive)] 1000).2 = some sampleExpired :=
  ⟨by decide, rfl, rfl⟩

/-- C7 (amended): the sweep removes exactly the records with
`now > expiresAt`; it runs before issue in the webhook handler (after an
issue, no expired entry remains) and before the lookup in `index.js`'s
`handleVerify` (after a well-formed redeem, no expired entry remains), but
`verify.js` runs no sweep: its redeem keeps every non-queried entry,
expired ones included. -/
theorem sweep_semantics (t s : Store) (now : Nat) (body : JsVal) (cands : List String)
    (res : WebhookResult) (c r : String) (apiUrl : Option String) :
    (∀ cd : String × CodeData,
      cd ∈ cleanExpiredCodes now t ↔ cd ∈ t ∧ ¬ now > cd.2.expiresAt) ∧
    (webhookHandler body cands now s = some res → res.issued = some c →
      ∀ p : String × CodeData, p ∈ res.store → ¬ now > p.2.expiresAt) ∧
    (¬ r = "" → isSixDigits (jsTrim r) = true →
      ∀ p : String × CodeData, p ∈ (indexVerifyHandler (some r) s now).2 →
        ¬ now > p.2.expiresAt) ∧
    (∀ c' d', lookupCode c' s = some d' → c' ≠ jsTrim r →
      lookupCode c' (verifyJsHandler (some r) apiUrl s now).2 = some d') := by
  refine ⟨?_, ?_, ?_, ?_⟩
  · intro cd
    obtain ⟨a, b⟩ := cd
    exact mem_cleanExpiredCodes now t a b
  · intro h hc p hp
    obtain ⟨hfresh, chatId, userId, username, firstName, hstore⟩ :=
      webhookHandler_issued body cands now s res c h hc
    rw [hstore] at hp
    rcases mem_mapSet _ _ _ _ hp with h2 | h2
    · rw [h2]
      exact Nat.not_lt.mpr (Nat.le_add_right now CODE_EXPIRY_MS)
    · exact ((mem_cleanExpiredCodes now s p.1 p.2).mp h2).2
  · intro he hf p hp
    have hclean : ∀ k, p ∈ eraseCode k (cleanExpiredCodes now s) → ¬ now > p.2.expiresAt :=
      fun k hk => ((mem_cleanExpiredCodes now s p.1 p.2).mp (mem_eraseCode _ _ _ hk)).2
    rcases hl : lookupCode (jsTrim r) (cleanExpiredCodes now s) with _ | d
    · refine hclean (jsTrim r) ?_
      have hst : (indexVerifyHandler (some r) s now).2 =
          eraseCode (jsTrim r) (cleanExpiredCodes now s) := by
        simp [indexVerifyHandler, he, hf, hl]
      rwa [hst] at hp
    · by_cases hex : now > d.expiresAt
      · refine hclean (jsTrim r) ?_
        have hst : (indexVerifyHandler (some r) s now).2 =
            eraseCode (jsTrim r) (cleanExpiredCodes now s) := by
          simp [indexVerifyHandler, he, hf, hl, hex]
        rwa [hst] at hp
      · refine hclean (jsTrim r) ?_
        have hst : (indexVerifyHandler (some r) s now).2 =
            eraseCode (jsTrim r) (cleanExpiredCodes now s) := by
          simp [indexVerifyHandler, he, hf, hl, hex]
        rwa [hst] at hp
  · intro c' d' hmem hne
    by_cases he : r = ""
    · simp [verifyJsHandler, he, hmem]
    by_cases hf : isSixDigits (jsTrim r) = true
    · rcases hl : lookupCode (jsTrim r) s with _ | d
      · simp [verifyJsHandler, he, hf, hl, hmem]
      · by_cases hex : now > d.expiresAt
        · simp [verifyJsHandler, he, hf, hl, hex,
            lookupCode_eraseCode_ne _ _ _ hne, hmem]
        · simp [verifyJsHandler, he, hf, hl, hex,
            lookupCode_eraseCode_ne _ _ _ hne, hmem]
    · simp [verifyJsHandler, he, hf, hmem]

/-- Witness for `sweep_semantics`: concrete instances of all four parts. -/
theorem sweep_semantics_witness :
    (("111111", sampleExpired) ∈ cleanExpiredCodes 1000 [("111111", sampleExpired)] ↔
      ("111111", sampleExpired) ∈ [("111111", sampleExpired)] ∧
      ¬ 1000 > sampleExpired.expiresAt) ∧
    ¬ (1000 : Nat) >
      ((⟨.num 42, .num 42, .str "", .str "there", some 1000, 301000⟩ : CodeData)).expiresAt ∧
    ¬ (1000 : Nat) > sampleLive.expiresAt ∧
    lookupCode "111111"
      (verifyJsHandler (some "999999") none [("111111", sampleExpired)] 1000).2 =
      some sampleExpired := by
  refine ⟨(sweep_semantics [("111111", sampleExpired)] [] 1000 JsVal.null []
    ⟨200, [], none⟩ "0" "0" none).1 ("111111", sampleExpired), ?_, ?_, ?_⟩
  · exact (sweep_semantics [] [("111111", sampleExpired)] 1000 connectMsg ["482913"]
      ⟨200, [("482913", ⟨.num 42, .num 42, .str "", .str "there", some 1000, 301000⟩)],
        some "482913"⟩
      "482913" "0" none).2.1 rfl rfl
      ("482913", ⟨.num 42, .num 42, .str "", .str "there", some 1000, 301000⟩)
      (List.mem_singleton_self _)
  · exact (sweep_semantics [] [("111111", sampleExpired), ("123456", sampleLive)] 1000
      JsVal.null [] ⟨200, [], none⟩ "0" "999999" none).2.2.1 (by decide) (by decide)
      ("123456", sampleLive) (List.mem_singleton_self _)
  · exact (sweep_semantics [] [("111111", sampleExpired)] 1000 JsVal.null []
      ⟨200, [], none⟩ "0" "999999" none).2.2.2 "111111" sampleExpired rfl (by decide)

/-- C8 counterexample: a successful redeem through `index.js`'s `handleVerify`
returns a config with no `sessionToken` (and no `apiEndpoint`) key. -/
theorem success_token_counterexample :
    (indexVerifyHandler (some "123456") [("123456", sampleLive)] 5).1.status = 200 ∧
    ((indexVerifyHandler (some "123456") [("123456", sampleLive)] 5).1.config).map
      (fun cf => cf.sessionToken) = some none ∧
    ((indexVerifyHandler (some "123456") [("123456", sampleLive)] 5).1.config).map
      (fun cf => cf.apiEndpoint) = some none :=
  ⟨rfl, rfl, rfl⟩

/-- C8 (amended): a successful redeem returns `success = true` and a config
carrying the stored owner's `userId` and `chatId` and the `|| null`-defaulted
`username`/`firstName`; `verify.js` additionally mints
`sessionToken = "cw_" ++ userId ++ "_" ++ now` and an `apiEndpoint`, while
`index.js`'s `handleVerify` returns the config without those keys. -/
theorem success_response_shape (r : String) (apiUrl : Option String) (s : Store)
    (now : Nat) (d : CodeData) (hf : isSixDigits (jsTrim r) = true) :
    (lookupCode (jsTrim r) s = some d → ¬ now > d.expiresAt →
      (verifyJsHandler (some r) apiUrl s now).1.status = 200 ∧
      (verifyJsHandler (some r) apiUrl s now).1.success = true ∧
      (verifyJsHandler (some r) apiUrl s now).1.config =
        some ⟨d.userId, d.chatId, jsOr d.username .null, jsOr d.firstName .null,
          some (envOr apiUrl "https://api.openclaw.ai/v1"),
          some ("cw_" ++ d.userId.display ++ "_" ++ toString now)⟩) ∧
    (lookupCode (jsTrim r) (cleanExpiredCodes now s) = some d → ¬ now > d.expiresAt →
      (indexVerifyHandler (some r) s now).1.status = 200 ∧
      (indexVerifyHandler (some r) s now).1.success = true ∧
      (indexVerifyHandler (some r) s now).1.config =
        some ⟨d.userId, d.chatId, jsOr d.username .null, jsOr d.firstName .null,
          none, none⟩) := by
  have he : ¬ r = "" := by
    intro hh
    rw [hh] at hf
    exact absurd hf (by decide)
  constructor
  · intro hl hex
    exact ⟨by simp [verifyJsHandler, he, hf, hl, hex],
      by simp [verifyJsHandler, he, hf, hl, hex],
      by simp [verifyJsHandler, he, hf, hl, hex]⟩
  · intro hl hex
    exact ⟨by simp [indexVerifyHandler, he, hf, hl, hex],
      by simp [indexVerifyHandler, he, hf, hl, hex],
      by simp [indexVerifyHandler, he, hf, hl, hex]⟩

/-- Witness for `success_response_shape`: code `"482913"` for user 42 redeemed
at `now = 10000` in both handlers. -/
theorem success_response_shape_witness :
    isSixDigits (jsTrim "482913") = true ∧
    (verifyJsHandler (some "482913") none [("482913", sampleLive)] 10000).1.status = 200 ∧
    (verifyJsHandler (some "482913") none [("482913", sampleLive)] 10000).1.config =
      some ⟨sampleLive.userId, sampleLive.chatId, jsOr sampleLive.username .null,
        jsOr sampleLive.firstName .null,
        some (envOr none "https://api.openclaw.ai/v1"),
        some ("cw_" ++ sampleLive.userId.display ++ "_" ++ toString (10000 : Nat))⟩ ∧
    (indexVerifyHandler (some "482913") [("482913", sampleLive)] 10000).1.status = 200 ∧
    (indexVerifyHandler (some "482913") [("482913", sampleLive)] 10000).1.config =
      some ⟨sampleLive.userId, sampleLive.chatId, jsOr sampleLive.username .null,
        jsOr sampleLive.firstName .null, none, none⟩ := by
  have h := success_response_shape "482913" none [("482913", sampleLive)] 10000 sampleLive
    (by decide)
  have h1 := h.1 (by rfl) (by decide)
  have h2 := h.2 (by rfl) (by decide)
  exact ⟨by decide, h1.1, h1.2.2, h2.1, h2.2.2⟩

/-- C9 counterexample: a `null` request body (a non-object body) makes the
destructuring `const { message } = req.body` throw, so both webhook handlers
answer 500 from the catch-all — not a 200-class no-op success (the registry
is still unchanged). -/
theorem malformed_body_counterexample :
    webhookHandler JsVal.null ["482913"] 0 [("123456", sampleLive)] =
      some ⟨500, [("123456", sampleLive)], none⟩ ∧
    (500 : Nat) ≠ 200 ∧
    indexWebhookHandler JsVal.null ["482913"] 0 [("123456", sampleLive)] =
      some ⟨500, [("123456", sampleLive)], none⟩ :=
  ⟨rfl, by decide, rfl⟩

/-- C9 (amended): a body whose `message` field is absent or falsy, or whose
`message.text` is falsy, gets a 200 `{ok:true}` no-op with the registry
unchanged in both webhook handlers; a `null` or `undefined` body instead
throws at the destructuring and gets a 500 fault, also with the registry
unchanged. -/
theorem malformed_body_semantics (body m t : JsVal) (cands : List String) (now : Nat)
    (s : Store) :
    (body.getProp "message" = some m → m.truthy = false →
      webhookHandler body cands now s = some ⟨200, s, none⟩ ∧
      indexWebhookHandler body cands now s = some ⟨200, s, none⟩) ∧
    (body.getProp "message" = some m → m.getProp "text" = some t → t.truthy = false →
      webhookHandler body cands now s = some ⟨200, s, none⟩ ∧
      indexWebhookHandler body cands now s = some ⟨200, s, none⟩) ∧
    ((body = JsVal.null ∨ body = JsVal.undefined) →
      webhookHandler body cands now s = some ⟨500, s, none⟩ ∧
      indexWebhookHandler body cands now s = some ⟨500, s, none⟩) := by
  refine ⟨?_, ?_, ?_⟩
  · intro hm hmt
    exact ⟨by simp [webhookHandler, hm, hmt], by simp [indexWebhookHandler, hm, hmt]⟩
  · intro hm ht htt
    by_cases hmt : m.truthy
    · exact ⟨by simp [webhookHandler, hm, hmt, ht, htt],
        by simp [indexWebhookHandler, hm, hmt, ht, htt]⟩
    · rw [Bool.not_eq_true] at hmt
      exact ⟨by simp [webhookHandler, hm, hmt], by simp [indexWebhookHandler, hm, hmt]⟩
  · rintro (rfl | rfl)
    · exact ⟨rfl, rfl⟩
    · exact ⟨rfl, rfl⟩

/-- Witness for `malformed_body_semantics`: a body without `message`, a body
whose message has no `text`, and a `null` body. -/
theorem malformed_body_semantics_witness :
    webhookHandler (.obj []) ["482913"] 0 [("123456", sampleLive)] =
      some ⟨200, [("123456", sampleLive)], none⟩ ∧
    indexWebhookHandler (.obj []) ["482913"] 0 [("123456", sampleLive)] =
      some ⟨200, [("123456", sampleLive)], none⟩ ∧
    webhookHandler (.obj [("message", .obj [("noText", .num 1)])]) ["482913"] 0
      [("123456", sampleLive)] = some ⟨200, [("123456", sampleLive)], none⟩ ∧
    webhookHandler .null ["482913"] 0 [("123456", sampleLive)] =
      some ⟨500, [("123456", sampleLive)], none⟩ := by
  have h1 := (malformed_body_semantics (.obj []) .undefined .undefined ["482913"] 0
    [("123456", sampleLive)]).1 rfl rfl
  have h2 := (malformed_body_semantics (.obj [("message", .obj [("noText", .num 1)])])
    (.obj [("noText", .num 1)]) .undefined ["482913"] 0 [("123456", sampleLive)]).2.1 rfl rfl rfl
  have h3 := (malformed_body_semantics .null .undefined .undefined ["482913"] 0
    [("123456", sampleLive)]).2.2 (Or.inl rfl)
  exact ⟨h1.1, h1.2, h2.1, h3.1⟩
